import Mathlib

/-!
Verification development for the weather_station firmware
(src/weather_station.py together with src/lib/config.py).

The firmware is a single sequential wake cycle: connect to WiFi,
synchronize the RTC, fetch the OpenWeather forecast, read the I2C
sensors, show the data on the OLED display, upload the readings to
ThingSpeak, and finally decide whether to deep-sleep.  Every fallible
step is modelled as a Lean function returning the list of externally
visible events it performs together with an Except result; the main
routine run composes them exactly as the Python try/except block does.
External collaborators (network stack, NTP server, HTTP responses, the
I2C bus scan, the sensor values and the debug pin) are supplied through
an explicit environment record.
-/

namespace WeatherStation

/-- HTTP GET requests the firmware can issue: the two OpenWeather
webhooks and the ThingSpeak logging webhook carrying the four sensor
readings as query parameters. -/
inductive Req : Type
  | ow1 : Req
  | ow2 : Req
  | thingspeak (temp hum pres lum : Rat) : Req
deriving DecidableEq

/-- Externally visible events performed during a cycle. -/
inductive Ev : Type
  | ledSet (v : Nat) : Ev
  | sleepMs (ms : Nat) : Ev
  | wifiConnectAttempt : Ev
  | ntpFetch : Ev
  | httpGet (r : Req) : Ev
  | scan : Ev
  | amMeasure : Ev
  | bmpMeasure : Ev
  | bhMeasure : Ev
  | showPage (p : Nat) : Ev
  | poweroff : Ev
  | caught : Ev
  | deepsleepMs (ms : Nat) : Ev
deriving DecidableEq

/-- Errors raised by the individual steps (the RuntimeError raise
sites of weather_station.py, plus the NTP/OSError and the daily-list
index error). -/
inductive Err : Type
  | wifiFailed : Err
  | ntpFailed : Err
  | url1Failed : Err
  | url2Failed : Err
  | parseError : Err
  | sensorNotFound (addr : Nat) : Err
  | oledNotFound : Err
  | thingspeakFailed : Err
deriving DecidableEq

/-- The compile-time constants of src/lib/config.py that the control
flow depends on. -/
structure Config : Type where
  LED_PIN : Nat
  LED_ON : Nat
  LED_OFF : Nat
  DEBUG_PIN : Nat
  FAHRENHEIT : Bool
  PAGES : List String
  TIMEZONE : Int
  DAYLIGHT_SAVING_TIME : Bool
  INTERVAL : Nat
  MAX_TRIES : Nat

/-- The concrete values of src/lib/config.py. -/
def config : Config :=
  { LED_PIN := 2
    LED_ON := 0
    LED_OFF := 1
    DEBUG_PIN := 5
    FAHRENHEIT := false
    PAGES := ["Date Time", "Currently", "Forecast", "Sensors #1", "Sensors #2"]
    TIMEZONE := 1
    DAYLIGHT_SAVING_TIME := true
    INTERVAL := 900
    MAX_TRIES := 20 }

/-- JSON payload of the first OpenWeather webhook (current weather by
city): the fields get_weather_data reads, flattened. -/
structure Resp1 : Type where
  status : Nat
  temp : Rat
  humidity : Int
  pressure : Int
  icon : String
  description : String
  lon : Rat
  lat : Rat
deriving DecidableEq

/-- One entry of the daily list of the second OpenWeather webhook. -/
structure DailyEntry : Type where
  temp_day : Rat
  humidity : Int
  pressure : Int
  icon : String
  description : String
deriving DecidableEq

/-- JSON payload of the second OpenWeather webhook (one-call forecast
by coordinates). -/
structure Resp2 : Type where
  status : Nat
  daily : List DailyEntry
deriving DecidableEq

/-- One entry of the list returned by get_weather_data. -/
structure DayData : Type where
  temp : Rat
  hum : Int
  pres : Int
  icon : String
  report : String
deriving DecidableEq

/-- The record returned by get_sensor_readings (the single dictionary
it wraps in a list). -/
structure SensorData : Type where
  am2320_temp : Rat
  am2320_hum : Rat
  bmp180_temp : Rat
  bmp180_pres : Rat
  bmp180_alt : Rat
  bh1750_lum : Rat
deriving DecidableEq

/-- The external world of one wake cycle: the debug pin level, the
WiFi status oracle indexed by the number of isconnected calls made so
far, the NTP result (none models an unreachable server), the RTC value
at wake-up, the two OpenWeather responses, the set of addresses
answering the I2C bus scan, the raw sensor values, and the ThingSpeak
response status. -/
structure Env : Type where
  debugPin : Nat
  isconn : Nat → Bool
  ntpTime : Option Int
  rtc0 : Int
  resp1 : Resp1
  resp2 : Resp2
  scanDevs : List Nat
  am_temp : Rat
  am_hum : Rat
  bmp_temp : Rat
  bmp_pres : Rat
  bmp_alt : Rat
  bh_lum : Rat
  logStatus : Nat

/-! ### Calendar arithmetic (model of utime.mktime / utime.localtime)

MicroPython timestamps count seconds from 2000-01-01 00:00:00, and
weekdays are encoded Monday = 0 .. Sunday = 6 (2000-01-01 was a
Saturday, weekday 5). -/

/-- Gregorian leap-year test. -/
def isLeap (y : Nat) : Bool :=
  y % 4 == 0 && (y % 100 != 0 || y % 400 == 0)

/-- Number of days in year y. -/
def daysInYear (y : Nat) : Nat :=
  if isLeap y then 366 else 365

/-- Days in the years 2000 .. 2000+n-1. -/
def daysFromY2K : Nat → Nat
  | 0 => 0
  | n + 1 => daysFromY2K n + daysInYear (2000 + n)

/-- Days of year y that precede month m (1-based). -/
def daysBeforeMonth (leap : Bool) (m : Nat) : Nat :=
  (match m with
   | 1 => 0
   | 2 => 31
   | 3 => 59
   | 4 => 90
   | 5 => 120
   | 6 => 151
   | 7 => 181
   | 8 => 212
   | 9 => 243
   | 10 => 273
   | 11 => 304
   | _ => 334) +
  (if leap && m > 2 then 1 else 0)

/-- Days between 2000-01-01 and the civil date y-m-d. -/
def dayNumber (y m d : Nat) : Nat :=
  daysFromY2K (y - 2000) + daysBeforeMonth (isLeap y) m + (d - 1)

/-- Model of utime.mktime on a local tuple (the weekday and yearday
slots of the MicroPython tuple are ignored by mktime). -/
def mktime (y m d hh mi ss : Nat) : Int :=
  ((dayNumber y m d * 86400 + hh * 3600 + mi * 60 + ss : Nat) : Int)

/-- Weekday of a civil date, Monday = 0 .. Sunday = 6. -/
def weekday (y m d : Nat) : Nat :=
  (dayNumber y m d + 5) % 7

/-- Fuel-driven year extraction from a day count (the fuel only bounds
the recursion depth; fuel = d always suffices). -/
def yearOfGo : Nat → Nat → Nat → Nat
  | 0, y, _ => y
  | fuel + 1, y, d => if d < daysInYear y then y else yearOfGo fuel (y + 1) (d - daysInYear y)

/-- Year slot of utime.localtime for a timestamp. -/
def yearOf (t : Int) : Nat :=
  yearOfGo (t.toNat / 86400) 2000 (t.toNat / 86400)

/-! ### The steps of the cycle, translated from weather_station.py -/

/-- show_error: flash the onboard LED 3 times, 0.5 s on / 0.5 s off
(the recursion mirrors the for loop over range(3)). -/
def flash_times (cfg : Config) : Nat → List Ev
  | 0 => []
  | n + 1 =>
      flash_times cfg n ++
        [Ev.ledSet cfg.LED_ON, Ev.sleepMs 500, Ev.ledSet cfg.LED_OFF, Ev.sleepMs 500]

/-- show_error of weather_station.py. -/
def show_error (cfg : Config) : List Ev :=
  flash_times cfg 3

/-- debug_on of weather_station.py: debugging is on when the debug pin
reads low. -/
def debug_on (env : Env) : Bool :=
  env.debugPin == 0

/-- The retry loop of connect_wifi: while not isconnected() and
tries < MAX_TRIES: sleep 1s.  The argument idx is the index of the
next isconnected call, remaining = MAX_TRIES - tries.  Returns the
trace of 1-second waits and the index of the next isconnected call
after the loop (the loop condition consumes one call per iteration,
including the final failed one). -/
def wifi_poll (isconn : Nat → Bool) : Nat → Nat → List Ev × Nat
  | idx, 0 => ([], idx + 1)
  | idx, r + 1 =>
      if isconn idx then ([], idx + 1)
      else
        let p := wifi_poll isconn (idx + 1) r
        (Ev.sleepMs 1000 :: p.1, p.2)

/-- connect_wifi of weather_station.py: if not already connected,
issue one connect attempt and poll the status once per second up to
MAX_TRIES times; a final status check decides between success and
RuntimeError. -/
def connect_wifi (cfg : Config) (env : Env) : List Ev × Except Err Unit :=
  if env.isconn 0 then
    if env.isconn 1 then ([], Except.ok ()) else ([], Except.error Err.wifiFailed)
  else
    let p := wifi_poll env.isconn 1 cfg.MAX_TRIES
    let t := Ev.wifiConnectAttempt :: p.1
    if env.isconn p.2 then (t, Except.ok ()) else (t, Except.error Err.wifiFailed)

/-- The Daylight Savings Time correction block of synchronize_rtc:
for the year of the already timezone-corrected time t1, the window
opens on day 31 - (5*year/4 + 4) % 7 of March at 02:00 (the last
Sunday of March) and closes on day 31 - (5*year/4 + 1) % 7 of October
at 03:00 (the last Sunday of October); one hour is added exactly when
t1 lies in the half-open window. -/
def dst_adjust (t1 : Int) : Int :=
  let year := yearOf t1
  let HHMarch := mktime year 3 (31 - (5 * year / 4 + 4) % 7) 2 0 0
  let HHOctober := mktime year 10 (31 - (5 * year / 4 + 1) % 7) 3 0 0
  let curtime := t1
  if HHMarch ≤ curtime ∧ curtime < HHOctober then curtime + 3600 else curtime

/-- synchronize_rtc of weather_station.py, acting on the RTC value
rtc (seconds of local time since 2000-01-01).  If the year is still
the power-on default 2000, fetch UTC from NTP, add TIMEZONE hours,
and if DAYLIGHT_SAVING_TIME holds apply the DST correction; otherwise
the call does nothing. -/
def synchronize_rtc (cfg : Config) (env : Env) (rtc : Int) : List Ev × Except Err Int :=
  if yearOf rtc = 2000 then
    match env.ntpTime with
    | none => ([Ev.ntpFetch], Except.error Err.ntpFailed)
    | some t0 =>
        let t1 : Int := t0 + cfg.TIMEZONE * 3600
        if cfg.DAYLIGHT_SAVING_TIME then
          ([Ev.ntpFetch], Except.ok (dst_adjust t1))
        else
          ([Ev.ntpFetch], Except.ok t1)
  else
    ([], Except.ok rtc)

/-- temperature_2_unit of weather_station.py. -/
def temperature_2_unit (cfg : Config) (celsius : Rat) : Rat :=
  if cfg.FAHRENHEIT then celsius * 9 / 5 + 32 else celsius

/-- The day record get_weather_data builds from one daily entry of the
second OpenWeather response. -/
def owDay (cfg : Config) (e : DailyEntry) : DayData :=
  { temp := temperature_2_unit cfg (e.temp_day - 273.15)
    hum := e.humidity
    pres := e.pressure
    icon := e.icon
    report := e.description }

/-- get_weather_data of weather_station.py: GET the current-weather
webhook (status at least 400 raises), build day 0 from it, GET the
one-call webhook (status at least 400 raises), and append days 1..3
from entries 1..3 of its daily list (a missing entry would raise an
IndexError). -/
def get_weather_data (cfg : Config) (env : Env) : List Ev × Except Err (List DayData) :=
  if env.resp1.status < 400 then
    let d0 : DayData :=
      { temp := temperature_2_unit cfg (env.resp1.temp - 273.15)
        hum := env.resp1.humidity
        pres := env.resp1.pressure
        icon := env.resp1.icon
        report := env.resp1.description }
    if env.resp2.status < 400 then
      match env.resp2.daily[1]?, env.resp2.daily[2]?, env.resp2.daily[3]? with
      | some e1, some e2, some e3 =>
          ([Ev.httpGet Req.ow1, Ev.httpGet Req.ow2],
           Except.ok [d0, owDay cfg e1, owDay cfg e2, owDay cfg e3])
      | _, _, _ => ([Ev.httpGet Req.ow1, Ev.httpGet Req.ow2], Except.error Err.parseError)
    else
      ([Ev.httpGet Req.ow1, Ev.httpGet Req.ow2], Except.error Err.url2Failed)
  else
    ([Ev.httpGet Req.ow1], Except.error Err.url1Failed)

/-- get_sensor_readings of weather_station.py: a wake-up scan, then a
presence scan for the AM2320 (address 92 = 0x5C) before measuring it,
a scan for the BMP180 (address 119 = 0x77) before reading it, and a
scan for the BH1750 (address 35 = 0x23) before reading it; a missing
address raises at its check and no later sensor is read. -/
def get_sensor_readings (cfg : Config) (env : Env) : List Ev × Except Err SensorData :=
  if 92 ∈ env.scanDevs then
    if 119 ∈ env.scanDevs then
      if 35 ∈ env.scanDevs then
        ([Ev.scan, Ev.scan, Ev.amMeasure, Ev.scan, Ev.bmpMeasure, Ev.scan, Ev.bhMeasure],
         Except.ok
           { am2320_temp := temperature_2_unit cfg env.am_temp
             am2320_hum := env.am_hum
             bmp180_temp := temperature_2_unit cfg env.bmp_temp
             bmp180_pres := env.bmp_pres / 100
             bmp180_alt := env.bmp_alt
             bh1750_lum := env.bh_lum })
      else
        ([Ev.scan, Ev.scan, Ev.amMeasure, Ev.scan, Ev.bmpMeasure, Ev.scan],
         Except.error (Err.sensorNotFound 35))
    else
      ([Ev.scan, Ev.scan, Ev.amMeasure, Ev.scan], Except.error (Err.sensorNotFound 119))
  else
    ([Ev.scan, Ev.scan], Except.error (Err.sensorNotFound 92))

/-- The page loop of update_oled_display: for page in
range(len(PAGES)) show the page and dwell 5 seconds. -/
def show_pages : Nat → List Ev
  | 0 => []
  | n + 1 => show_pages n ++ [Ev.showPage n, Ev.sleepMs 5000]

/-- update_oled_display of weather_station.py: scan the bus and raise
if the display address 60 = 0x3C is absent, otherwise show every
configured page and power the display off. -/
def update_oled_display (cfg : Config) (env : Env) (ow_data : List DayData)
    (sensor_data : SensorData) : List Ev × Except Err Unit :=
  if 60 ∈ env.scanDevs then
    (Ev.scan :: show_pages cfg.PAGES.length ++ [Ev.poweroff], Except.ok ())
  else
    ([Ev.scan], Except.error Err.oledNotFound)

/-- log_sensor_readings of weather_station.py: one GET to the
ThingSpeak webhook carrying temperature, humidity, pressure and
luminance; a status of at least 400 raises. -/
def log_sensor_readings (cfg : Config) (sensor_data : SensorData) (env : Env) :
    List Ev × Except Err Unit :=
  ([Ev.httpGet (Req.thingspeak sensor_data.am2320_temp sensor_data.am2320_hum
      sensor_data.bmp180_pres sensor_data.bh1750_lum)],
   if env.logStatus < 400 then Except.ok () else Except.error Err.thingspeakFailed)

/-- deepsleep_till_next_cycle of weather_station.py: a 2 second wait,
then deepsleep for INTERVAL * 1000 milliseconds. -/
def deepsleep_till_next_cycle (cfg : Config) : List Ev :=
  [Ev.sleepMs 2000, Ev.deepsleepMs (cfg.INTERVAL * 1000)]

/-! ### The orchestrator -/

/-- Sequential composition of traced fallible steps: the Python
semantics of executing one statement after another inside the try
block, where a raise skips the rest. -/
def andThen {α β : Type} (a : List Ev × Except Err α)
    (f : α → List Ev × Except Err β) : List Ev × Except Err β :=
  match a with
  | (t, Except.error e) => (t, Except.error e)
  | (t, Except.ok x) => (t ++ (f x).1, (f x).2)

/-- The tail of the try block from update_oled_display on. -/
def steps_from_render (cfg : Config) (env : Env) (ow_data : List DayData)
    (sensor_data : SensorData) : List Ev × Except Err Unit :=
  andThen (update_oled_display cfg env ow_data sensor_data) fun _ =>
    log_sensor_readings cfg sensor_data env

/-- The tail of the try block from get_sensor_readings on. -/
def steps_from_sensors (cfg : Config) (env : Env) (ow_data : List DayData) :
    List Ev × Except Err Unit :=
  andThen (get_sensor_readings cfg env) fun sensor_data =>
    steps_from_render cfg env ow_data sensor_data

/-- The tail of the try block from get_weather_data on. -/
def steps_from_weather (cfg : Config) (env : Env) : List Ev × Except Err Unit :=
  andThen (get_weather_data cfg env) fun ow_data =>
    steps_from_sensors cfg env ow_data

/-- The tail of the try block from synchronize_rtc on. -/
def steps_from_sync (cfg : Config) (env : Env) : List Ev × Except Err Unit :=
  andThen (synchronize_rtc cfg env env.rtc0) fun _ =>
    steps_from_weather cfg env

/-- The whole try block of run. -/
def cycle_steps (cfg : Config) (env : Env) : List Ev × Except Err Unit :=
  andThen (connect_wifi cfg env) fun _ =>
    steps_from_sync cfg env

/-- The sleep decision at the end of run: deep-sleep unless the debug
pin is low. -/
def sleep_decision (cfg : Config) (env : Env) : List Ev :=
  if debug_on env then [] else deepsleep_till_next_cycle cfg

/-- run of weather_station.py: execute the try block; on any raise,
print the exception (the caught event) and flash the error LED; in
every case fall through to the sleep decision. -/
def run (cfg : Config) (env : Env) : List Ev :=
  let s := cycle_steps cfg env
  (match s.2 with
   | Except.ok _ => s.1
   | Except.error _ => s.1 ++ (Ev.caught :: show_error cfg)) ++
  sleep_decision cfg env

/-! ### Event classifiers -/

/-- Event is a write to the error LED. -/
def Ev.isLed : Ev → Bool
  | Ev.ledSet _ => true
  | _ => false

/-- Event is the orchestrator catching an exception. -/
def Ev.isCaught : Ev → Bool
  | Ev.caught => true
  | _ => false

/-- Event is the deepsleep call. -/
def Ev.isDeep : Ev → Bool
  | Ev.deepsleepMs _ => true
  | _ => false

/-- Event shows a display page. -/
def Ev.isPage : Ev → Bool
  | Ev.showPage _ => true
  | _ => false

/-- Event is a GET to the ThingSpeak logging webhook. -/
def Ev.isTs : Ev → Bool
  | Ev.httpGet (Req.thingspeak _ _ _ _) => true
  | _ => false

/-- Event is the WiFi connect attempt. -/
def Ev.isConnAttempt : Ev → Bool
  | Ev.wifiConnectAttempt => true
  | _ => false

/-- Event is a one-second wait of the WiFi retry loop. -/
def Ev.isWait1s : Ev → Bool
  | Ev.sleepMs ms => ms == 1000
  | _ => false

/-- Events that the try block itself can emit: everything except LED
writes, the catch marker and the deepsleep call. -/
def tameEv : Ev → Bool
  | Ev.ledSet _ => false
  | Ev.caught => false
  | Ev.deepsleepMs _ => false
  | _ => true

/-! ### Concrete test environments -/

/-- One daily forecast entry used by the concrete environments. -/
def dailyE (i : Nat) : DailyEntry :=
  { temp_day := 280 + (i : Rat)
    humidity := 60
    pressure := 1010
    icon := "02d"
    description := "few clouds" }

/-- A concrete environment in which every step succeeds: WiFi present,
RTC already synchronized, both webhooks and the upload succeed, and
all I2C devices answer the scan. -/
def envBase : Env :=
  { debugPin := 1
    isconn := fun _ => true
    ntpTime := some 670000000
    rtc0 := 700000000
    resp1 :=
      { status := 200
        temp := 293.15
        humidity := 55
        pressure := 1013
        icon := "01d"
        description := "clear sky"
        lon := 4
        lat := 51 }
    resp2 := { status := 200, daily := [dailyE 0, dailyE 1, dailyE 2, dailyE 3] }
    scanDevs := [92, 119, 35, 60]
    am_temp := 21
    am_hum := 45
    bmp_temp := 21
    bmp_pres := 101300
    bmp_alt := 10
    bh_lum := 350
    logStatus := 200 }

/-- envBase with the WiFi never connecting. -/
def envWifiFail : Env := { envBase with isconn := fun _ => false }

/-- envBase with the debug pin pulled low. -/
def envDebug : Env := { envBase with debugPin := 0 }

/-- envBase with the BMP180 address missing from the bus scan. -/
def envNo119 : Env := { envBase with scanDevs := [92, 35, 60] }

/-- envBase with the OLED display address missing from the bus scan. -/
def envNoOled : Env := { envBase with scanDevs := [92, 119, 35] }

/-- envBase with a failing first OpenWeather webhook. -/
def envOw1Fail : Env := { envBase with resp1 := { envBase.resp1 with status := 500 } }

/-! ### Helper lemmas about the traces -/

theorem andThen_mem {α β : Type} {p : Ev → Prop} (a : List Ev × Except Err α)
    (f : α → List Ev × Except Err β)
    (h1 : ∀ e ∈ a.1, p e) (h2 : ∀ x, ∀ e ∈ (f x).1, p e) :
    ∀ e ∈ (andThen a f).1, p e := by
  rcases a with ⟨t, r⟩
  cases r with
  | error er => simpa [andThen] using h1
  | ok x =>
      intro e he
      simp only [andThen, List.mem_append] at he
      rcases he with he | he
      · exact h1 e he
      · exact h2 x e he

theorem andThen_of_error {α β : Type} (a : List Ev × Except Err α)
    (f : α → List Ev × Except Err β) {er : Err} (h : a.2 = Except.error er) :
    andThen a f = (a.1, Except.error er) := by
  rcases a with ⟨t, r⟩; cases r <;> simp_all [andThen]

theorem andThen_of_ok {α β : Type} (a : List Ev × Except Err α)
    (f : α → List Ev × Except Err β) {x : α} (h : a.2 = Except.ok x) :
    andThen a f = (a.1 ++ (f x).1, (f x).2) := by
  rcases a with ⟨t, r⟩; cases r <;> simp_all [andThen]

theorem wifi_poll_mem (c : Nat → Bool) (r : Nat) :
    ∀ idx, ∀ e ∈ (wifi_poll c idx r).1, e = Ev.sleepMs 1000 := by
  induction r with
  | zero => intro idx e he; simp [wifi_poll] at he
  | succ r ih =>
      intro idx e he
      rw [wifi_poll] at he
      by_cases h : c idx
      · simp [h] at he
      · simp only [h, if_false, Bool.false_eq_true, List.mem_cons] at he
        rcases he with he | he
        · exact he
        · exact ih (idx + 1) e he

theorem wifi_poll_length_le (c : Nat → Bool) (r : Nat) :
    ∀ idx, ((wifi_poll c idx r).1).length ≤ r := by
  induction r with
  | zero => intro idx; simp [wifi_poll]
  | succ r ih =>
      intro idx
      rw [wifi_poll]
      by_cases h : c idx
      · simp [h]
      · simp only [h, if_false, Bool.false_eq_true, List.length_cons]
        exact Nat.succ_le_succ (ih (idx + 1))

theorem wifi_poll_never (c : Nat → Bool) (hc : ∀ n, c n = false) (r : Nat) :
    ∀ idx, (wifi_poll c idx r).1.length = r := by
  induction r with
  | zero => intro idx; simp [wifi_poll]
  | succ r ih =>
      intro idx
      rw [wifi_poll]
      simp only [hc idx, Bool.false_eq_true, if_false, List.length_cons]
      exact congrArg Nat.succ (ih (idx + 1))

theorem connect_wifi_mem (cfg : Config) (env : Env) :
    ∀ e ∈ (connect_wifi cfg env).1, e = Ev.wifiConnectAttempt ∨ e = Ev.sleepMs 1000 := by
  intro e he
  rw [connect_wifi] at he
  by_cases h0 : env.isconn 0
  · by_cases h1 : env.isconn 1 <;> simp [h0, h1] at he
  · simp only [h0, Bool.false_eq_true, if_false] at he
    by_cases h2 : env.isconn (wifi_poll env.isconn 1 cfg.MAX_TRIES).2 <;>
      · simp only [h2, if_true, Bool.false_eq_true, if_false, List.mem_cons] at he
        rcases he with he | he
        · exact Or.inl he
        · exact Or.inr (wifi_poll_mem env.isconn cfg.MAX_TRIES 1 e he)

theorem connect_wifi_connected (cfg : Config) (env : Env)
    (h : ∀ n, env.isconn n = true) :
    connect_wifi cfg env = ([], Except.ok ()) := by
  simp [connect_wifi, h]

theorem sync_mem (cfg : Config) (env : Env) (rtc : Int) :
    ∀ e ∈ (synchronize_rtc cfg env rtc).1, e = Ev.ntpFetch := by
  intro e he
  rw [synchronize_rtc] at he
  by_cases hy : yearOf rtc = 2000
  · rw [if_pos hy] at he
    cases hnt : env.ntpTime with
    | none => rw [hnt] at he; simpa using he
    | some t0 =>
        rw [hnt] at he
        by_cases hd : cfg.DAYLIGHT_SAVING_TIME <;> simp [hd] at he <;> exact he
  · rw [if_neg hy] at he
    simp at he

theorem synchronize_rtc_noop (cfg : Config) (env : Env) (rtc : Int)
    (h : yearOf rtc ≠ 2000) :
    synchronize_rtc cfg env rtc = ([], Except.ok rtc) := by
  simp [synchronize_rtc, h]

theorem weather_mem (cfg : Config) (env : Env) :
    ∀ e ∈ (get_weather_data cfg env).1,
      e = Ev.httpGet Req.ow1 ∨ e = Ev.httpGet Req.ow2 := by
  intro e he
  rw [get_weather_data] at he
  by_cases h1 : env.resp1.status < 400
  · simp only [h1, if_true] at he
    by_cases h2 : env.resp2.status < 400
    · simp only [h2, if_true] at he
      split at he <;> simp at he <;> tauto
    · simp [h2] at he; tauto
  · simp [h1] at he; tauto

theorem sensors_mem (cfg : Config) (env : Env) :
    ∀ e ∈ (get_sensor_readings cfg env).1,
      e = Ev.scan ∨ e = Ev.amMeasure ∨ e = Ev.bmpMeasure ∨ e = Ev.bhMeasure := by
  intro e he
  rw [get_sensor_readings] at he
  by_cases h92 : 92 ∈ env.scanDevs
  · by_cases h119 : 119 ∈ env.scanDevs
    · by_cases h35 : 35 ∈ env.scanDevs <;> simp [h92, h119, h35] at he <;> tauto
    · simp [h92, h119] at he; tauto
  · simp [h92] at he; tauto

theorem show_pages_mem (n : Nat) :
    ∀ e ∈ show_pages n, (∃ p, e = Ev.showPage p) ∨ e = Ev.sleepMs 5000 := by
  induction n with
  | zero => intro e he; simp [show_pages] at he
  | succ n ih =>
      intro e he
      rw [show_pages] at he
      rcases List.mem_append.mp he with h | h
      · exact ih e h
      · rcases List.mem_cons.mp h with h | h
        · exact Or.inl ⟨n, h⟩
        · rcases List.mem_cons.mp h with h | h
          · exact Or.inr h
          · simp at h

theorem display_mem (cfg : Config) (env : Env) (ow : List DayData) (sd : SensorData) :
    ∀ e ∈ (update_oled_display cfg env ow sd).1,
      e = Ev.scan ∨ (∃ p, e = Ev.showPage p) ∨ e = Ev.sleepMs 5000 ∨ e = Ev.poweroff := by
  intro e he
  rw [update_oled_display] at he
  by_cases h60 : 60 ∈ env.scanDevs
  · rw [if_pos h60] at he
    have hsp := show_pages_mem cfg.PAGES.length e
    simp only [List.mem_cons, List.mem_append, List.mem_singleton] at he
    tauto
  · simp [h60] at he; tauto

theorem log_mem (cfg : Config) (sd : SensorData) (env : Env) :
    ∀ e ∈ (log_sensor_readings cfg sd env).1, Ev.isTs e = true := by
  intro e he
  simp only [log_sensor_readings, List.mem_singleton] at he
  simp [he, Ev.isTs]

theorem steps_from_sync_mem (cfg : Config) (env : Env) :
    ∀ e ∈ (steps_from_sync cfg env).1, tameEv e = true ∧ Ev.isConnAttempt e = false := by
  unfold steps_from_sync steps_from_weather steps_from_sensors steps_from_render
  apply andThen_mem
  · intro e he
    have h := sync_mem cfg env env.rtc0 e he
    subst h; exact ⟨rfl, rfl⟩
  · intro _x
    apply andThen_mem
    · intro e he
      rcases weather_mem cfg env e he with h | h <;> subst h <;> exact ⟨rfl, rfl⟩
    · intro ow
      apply andThen_mem
      · intro e he
        rcases sensors_mem cfg env e he with h | h | h | h <;> subst h <;> exact ⟨rfl, rfl⟩
      · intro sd
        apply andThen_mem
        · intro e he
          rcases display_mem cfg env ow sd e he with h | ⟨p, h⟩ | h | h <;> subst h <;>
            exact ⟨rfl, rfl⟩
        · intro _u e he
          simp only [log_sensor_readings, List.mem_singleton] at he
          subst he; exact ⟨rfl, rfl⟩

theorem cycle_steps_mem (cfg : Config) (env : Env) :
    ∀ e ∈ (cycle_steps cfg env).1, tameEv e = true := by
  unfold cycle_steps
  apply andThen_mem
  · intro e he
    rcases connect_wifi_mem cfg env e he with h | h <;> subst h <;> rfl
  · intro _x e he
    exact (steps_from_sync_mem cfg env e he).1

theorem cycle_count_caught (cfg : Config) (env : Env) :
    List.countP Ev.isCaught (cycle_steps cfg env).1 = 0 := by
  refine List.countP_eq_zero.mpr ?_
  intro e he
  have h := cycle_steps_mem cfg env e he
  cases e <;> simp_all [tameEv, Ev.isCaught]

theorem cycle_count_led (cfg : Config) (env : Env) :
    List.countP Ev.isLed (cycle_steps cfg env).1 = 0 := by
  refine List.countP_eq_zero.mpr ?_
  intro e he
  have h := cycle_steps_mem cfg env e he
  cases e <;> simp_all [tameEv, Ev.isLed]

theorem cycle_count_deep (cfg : Config) (env : Env) :
    List.countP Ev.isDeep (cycle_steps cfg env).1 = 0 := by
  refine List.countP_eq_zero.mpr ?_
  intro e he
  have h := cycle_steps_mem cfg env e he
  cases e <;> simp_all [tameEv, Ev.isDeep]

theorem show_error_eq (cfg : Config) :
    show_error cfg =
      [Ev.ledSet cfg.LED_ON, Ev.sleepMs 500, Ev.ledSet cfg.LED_OFF, Ev.sleepMs 500,
       Ev.ledSet cfg.LED_ON, Ev.sleepMs 500, Ev.ledSet cfg.LED_OFF, Ev.sleepMs 500,
       Ev.ledSet cfg.LED_ON, Ev.sleepMs 500, Ev.ledSet cfg.LED_OFF, Ev.sleepMs 500] := rfl

theorem show_error_count_caught (cfg : Config) :
    List.countP Ev.isCaught (show_error cfg) = 0 := by
  simp [show_error_eq cfg, List.countP_cons, Ev.isCaught]

theorem show_error_count_led (cfg : Config) :
    List.countP Ev.isLed (show_error cfg) = 6 := by
  simp [show_error_eq cfg, List.countP_cons, Ev.isLed]

theorem show_error_count_deep (cfg : Config) :
    List.countP Ev.isDeep (show_error cfg) = 0 := by
  simp [show_error_eq cfg, List.countP_cons, Ev.isDeep]

theorem sleep_decision_count_caught (cfg : Config) (env : Env) :
    List.countP Ev.isCaught (sleep_decision cfg env) = 0 := by
  unfold sleep_decision deepsleep_till_next_cycle
  split <;> simp [List.countP_cons, Ev.isCaught]

theorem sleep_decision_count_led (cfg : Config) (env : Env) :
    List.countP Ev.isLed (sleep_decision cfg env) = 0 := by
  unfold sleep_decision deepsleep_till_next_cycle
  split <;> simp [List.countP_cons, Ev.isLed]

theorem run_of_error (cfg : Config) (env : Env) (er : Err)
    (h : (cycle_steps cfg env).2 = Except.error er) :
    run cfg env =
      ((cycle_steps cfg env).1 ++ (Ev.caught :: show_error cfg)) ++
        sleep_decision cfg env := by
  simp [run, h]

theorem run_of_ok (cfg : Config) (env : Env)
    (h : (cycle_steps cfg env).2 = Except.ok ()) :
    run cfg env = (cycle_steps cfg env).1 ++ sleep_decision cfg env := by
  simp [run, h]

theorem run_reaches_sleep_decision (cfg : Config) (env : Env) :
    ∃ pre, run cfg env = pre ++ sleep_decision cfg env := by
  rcases hres : (cycle_steps cfg env).2 with er | x
  · exact ⟨_, run_of_error cfg env er hres⟩
  · cases x; exact ⟨_, run_of_ok cfg env hres⟩

theorem sleep_decision_count_deep (cfg : Config) (env : Env) :
    List.countP Ev.isDeep (sleep_decision cfg env) = if debug_on env then 0 else 1 := by
  unfold sleep_decision deepsleep_till_next_cycle
  split <;> simp [List.countP_cons, Ev.isDeep]

theorem sleep_decision_count_ts (cfg : Config) (env : Env) :
    List.countP Ev.isTs (sleep_decision cfg env) = 0 := by
  unfold sleep_decision deepsleep_till_next_cycle
  split <;> simp [List.countP_cons, Ev.isTs]

theorem sleep_decision_count_page (cfg : Config) (env : Env) :
    List.countP Ev.isPage (sleep_decision cfg env) = 0 := by
  unfold sleep_decision deepsleep_till_next_cycle
  split <;> simp [List.countP_cons, Ev.isPage]

theorem sleep_decision_count_attempt (cfg : Config) (env : Env) :
    List.countP Ev.isConnAttempt (sleep_decision cfg env) = 0 := by
  unfold sleep_decision deepsleep_till_next_cycle
  split <;> simp [List.countP_cons, Ev.isConnAttempt]

theorem show_error_count_ts (cfg : Config) :
    List.countP Ev.isTs (show_error cfg) = 0 := by
  simp [show_error_eq cfg, List.countP_cons, Ev.isTs]

theorem show_error_count_page (cfg : Config) :
    List.countP Ev.isPage (show_error cfg) = 0 := by
  simp [show_error_eq cfg, List.countP_cons, Ev.isPage]

theorem show_error_count_attempt (cfg : Config) :
    List.countP Ev.isConnAttempt (show_error cfg) = 0 := by
  simp [show_error_eq cfg, List.countP_cons, Ev.isConnAttempt]

theorem run_count_deep (cfg : Config) (env : Env) :
    List.countP Ev.isDeep (run cfg env) = if debug_on env then 0 else 1 := by
  rcases hres : (cycle_steps cfg env).2 with er | x
  · rw [run_of_error cfg env er hres]
    simp [List.countP_append, List.countP_cons, Ev.isDeep, cycle_count_deep,
      show_error_count_deep, sleep_decision_count_deep]
  · cases x
    rw [run_of_ok cfg env hres]
    simp [List.countP_append, cycle_count_deep, sleep_decision_count_deep]

theorem connect_count_attempt (cfg : Config) (env : Env) :
    List.countP Ev.isConnAttempt (connect_wifi cfg env).1 ≤ 1 := by
  rw [connect_wifi]
  by_cases h0 : env.isconn 0
  · by_cases h1 : env.isconn 1 <;> simp [h0, h1]
  · simp only [h0, Bool.false_eq_true, if_false]
    have hz : List.countP Ev.isConnAttempt (wifi_poll env.isconn 1 cfg.MAX_TRIES).1 = 0 := by
      refine List.countP_eq_zero.mpr ?_
      intro e he
      have h := wifi_poll_mem env.isconn cfg.MAX_TRIES 1 e he
      subst h; simp [Ev.isConnAttempt]
    by_cases h2 : env.isconn (wifi_poll env.isconn 1 cfg.MAX_TRIES).2 <;>
      simp [h2, List.countP_cons, Ev.isConnAttempt, hz]

theorem tail_count_attempt (cfg : Config) (env : Env) :
    List.countP Ev.isConnAttempt (steps_from_sync cfg env).1 = 0 := by
  refine List.countP_eq_zero.mpr ?_
  intro e he
  simp [(steps_from_sync_mem cfg env e he).2]

theorem cycle_count_attempt (cfg : Config) (env : Env) :
    List.countP Ev.isConnAttempt (cycle_steps cfg env).1 ≤ 1 := by
  have hconn := connect_count_attempt cfg env
  have htail := tail_count_attempt cfg env
  unfold cycle_steps
  rcases hr : (connect_wifi cfg env).2 with er | x
  · rw [andThen_of_error (connect_wifi cfg env) _ hr]
    exact hconn
  · rw [andThen_of_ok (connect_wifi cfg env) _ hr]
    simp only [List.countP_append, htail]
    omega

theorem run_count_attempt (cfg : Config) (env : Env) :
    List.countP Ev.isConnAttempt (run cfg env) ≤ 1 := by
  have hcy := cycle_count_attempt cfg env
  rcases hres : (cycle_steps cfg env).2 with er | x
  · rw [run_of_error cfg env er hres]
    simp [List.countP_append, List.countP_cons, Ev.isConnAttempt,
      show_error_count_attempt, sleep_decision_count_attempt]
    omega
  · cases x
    rw [run_of_ok cfg env hres]
    simp [List.countP_append, sleep_decision_count_attempt]
    omega

/-! ### Evaluation of the steps on the success and failure paths -/

theorem connect_wifi_never (cfg : Config) (env : Env)
    (h : ∀ n, env.isconn n = false) :
    (connect_wifi cfg env).2 = Except.error Err.wifiFailed ∧
    List.countP Ev.isWait1s (connect_wifi cfg env).1 = cfg.MAX_TRIES := by
  have hlen := wifi_poll_never env.isconn h cfg.MAX_TRIES 1
  have hall : List.countP Ev.isWait1s (wifi_poll env.isconn 1 cfg.MAX_TRIES).1 =
      (wifi_poll env.isconn 1 cfg.MAX_TRIES).1.length := by
    refine List.countP_eq_length.mpr ?_
    intro e he
    have heq := wifi_poll_mem env.isconn cfg.MAX_TRIES 1 e he
    subst heq; rfl
  constructor
  · rw [connect_wifi]
    simp [h]
  · rw [connect_wifi]
    simp only [h, Bool.false_eq_true, if_false, List.countP_cons]
    simp [Ev.isWait1s, hall, hlen]

theorem connect_wifi_wait_bound (cfg : Config) (env : Env) :
    List.countP Ev.isWait1s (connect_wifi cfg env).1 ≤ cfg.MAX_TRIES := by
  rw [connect_wifi]
  by_cases h0 : env.isconn 0
  · by_cases h1 : env.isconn 1 <;> simp [h0, h1]
  · simp only [h0, Bool.false_eq_true, if_false]
    have hle := wifi_poll_length_le env.isconn cfg.MAX_TRIES 1
    have hcp := List.countP_le_length (p := Ev.isWait1s)
      (l := (wifi_poll env.isconn 1 cfg.MAX_TRIES).1)
    by_cases h2 : env.isconn (wifi_poll env.isconn 1 cfg.MAX_TRIES).2 <;>
      simp only [h2, if_true, Bool.false_eq_true, if_false, List.countP_cons] <;>
      simp [Ev.isWait1s] <;> omega

theorem get_weather_data_ok (cfg : Config) (env : Env)
    (h1 : env.resp1.status < 400) (h2 : env.resp2.status < 400)
    (hlen : 4 ≤ env.resp2.daily.length) :
    get_weather_data cfg env =
      ([Ev.httpGet Req.ow1, Ev.httpGet Req.ow2],
       Except.ok
         [ { temp := temperature_2_unit cfg (env.resp1.temp - 273.15)
             hum := env.resp1.humidity
             pres := env.resp1.pressure
             icon := env.resp1.icon
             report := env.resp1.description },
           owDay cfg (env.resp2.daily.get ⟨1, by omega⟩),
           owDay cfg (env.resp2.daily.get ⟨2, by omega⟩),
           owDay cfg (env.resp2.daily.get ⟨3, by omega⟩) ]) := by
  have hg : ∀ i, ∀ hi : i < env.resp2.daily.length,
      env.resp2.daily[i]? = some (env.resp2.daily.get ⟨i, hi⟩) := by
    intro i hi
    simp [List.getElem?_eq_getElem hi]
  rw [get_weather_data]
  simp [h1, h2, hg 1 (by omega), hg 2 (by omega), hg 3 (by omega)]

theorem get_sensor_readings_ok (cfg : Config) (env : Env)
    (h92 : 92 ∈ env.scanDevs) (h119 : 119 ∈ env.scanDevs) (h35 : 35 ∈ env.scanDevs) :
    get_sensor_readings cfg env =
      ([Ev.scan, Ev.scan, Ev.amMeasure, Ev.scan, Ev.bmpMeasure, Ev.scan, Ev.bhMeasure],
       Except.ok
         { am2320_temp := temperature_2_unit cfg env.am_temp
           am2320_hum := env.am_hum
           bmp180_temp := temperature_2_unit cfg env.bmp_temp
           bmp180_pres := env.bmp_pres / 100
           bmp180_alt := env.bmp_alt
           bh1750_lum := env.bh_lum }) := by
  simp [get_sensor_readings, h92, h119, h35]

theorem update_oled_display_no_display (cfg : Config) (env : Env)
    (ow : List DayData) (sd : SensorData) (h60 : 60 ∉ env.scanDevs) :
    update_oled_display cfg env ow sd = ([Ev.scan], Except.error Err.oledNotFound) := by
  simp [update_oled_display, h60]

theorem cycle_steps_no_display (cfg : Config) (env : Env)
    (hconn : ∀ n, env.isconn n = true)
    (hyear : yearOf env.rtc0 ≠ 2000)
    (h1 : env.resp1.status < 400) (h2 : env.resp2.status < 400)
    (hlen : 4 ≤ env.resp2.daily.length)
    (h92 : 92 ∈ env.scanDevs) (h119 : 119 ∈ env.scanDevs) (h35 : 35 ∈ env.scanDevs)
    (h60 : 60 ∉ env.scanDevs) :
    cycle_steps cfg env =
      ([Ev.httpGet Req.ow1, Ev.httpGet Req.ow2, Ev.scan, Ev.scan, Ev.amMeasure, Ev.scan,
        Ev.bmpMeasure, Ev.scan, Ev.bhMeasure, Ev.scan],
       Except.error Err.oledNotFound) := by
  have hcw := connect_wifi_connected cfg env hconn
  have hsy := synchronize_rtc_noop cfg env env.rtc0 hyear
  have hw := get_weather_data_ok cfg env h1 h2 hlen
  have hs := get_sensor_readings_ok cfg env h92 h119 h35
  unfold cycle_steps steps_from_sync steps_from_weather steps_from_sensors steps_from_render
  rw [hcw, hsy, hw, hs]
  simp [andThen, update_oled_display, h60]

/-! ### The claims -/

/-- C1: for every environment, when any step of the cycle raises, the
error is caught exactly once at the orchestrator boundary, the fault
LED is flashed exactly 3 times with 0.5 seconds on and 0.5 seconds
off, and control reaches the sleep decision; run is a total function
and its trace always ends with the sleep decision, so no step failure
crashes the process or skips that decision. -/
theorem c1_error_boundary (cfg : Config) (env : Env) :
    (∀ er, (cycle_steps cfg env).2 = Except.error er →
      run cfg env =
        ((cycle_steps cfg env).1 ++ (Ev.caught :: show_error cfg)) ++
          sleep_decision cfg env ∧
      List.countP Ev.isCaught (run cfg env) = 1 ∧
      List.countP Ev.isLed (run cfg env) = 6) ∧
    ((cycle_steps cfg env).2 = Except.ok () →
      run cfg env = (cycle_steps cfg env).1 ++ sleep_decision cfg env ∧
      List.countP Ev.isCaught (run cfg env) = 0 ∧
      List.countP Ev.isLed (run cfg env) = 0) ∧
    show_error cfg =
      [Ev.ledSet cfg.LED_ON, Ev.sleepMs 500, Ev.ledSet cfg.LED_OFF, Ev.sleepMs 500,
       Ev.ledSet cfg.LED_ON, Ev.sleepMs 500, Ev.ledSet cfg.LED_OFF, Ev.sleepMs 500,
       Ev.ledSet cfg.LED_ON, Ev.sleepMs 500, Ev.ledSet cfg.LED_OFF, Ev.sleepMs 500] ∧
    (∃ pre, run cfg env = pre ++ sleep_decision cfg env) := by
  refine ⟨?_, ?_, show_error_eq cfg, run_reaches_sleep_decision cfg env⟩
  · intro er h
    have hr := run_of_error cfg env er h
    refine ⟨hr, ?_, ?_⟩ <;> rw [hr] <;>
      simp [List.countP_append, List.countP_cons, Ev.isCaught, Ev.isLed,
        cycle_count_caught, cycle_count_led, show_error_count_caught, show_error_count_led,
        sleep_decision_count_caught, sleep_decision_count_led]
  · intro h
    have hr := run_of_ok cfg env h
    refine ⟨hr, ?_, ?_⟩ <;> rw [hr] <;>
      simp [List.countP_append, cycle_count_caught, cycle_count_led,
        sleep_decision_count_caught, sleep_decision_count_led]

/-- C1 witness: with WiFi never connecting the cycle fails, the error
is caught once and the LED is written 6 times (3 on / 3 off). -/
theorem c1_error_boundary_witness :
    (cycle_steps config envWifiFail).2 = Except.error Err.wifiFailed ∧
    List.countP Ev.isCaught (run config envWifiFail) = 1 ∧
    List.countP Ev.isLed (run config envWifiFail) = 6 :=
  ⟨by rfl,
   ((c1_error_boundary config envWifiFail).1 Err.wifiFailed (by rfl)).2.1,
   ((c1_error_boundary config envWifiFail).1 Err.wifiFailed (by rfl)).2.2⟩

/-- C2: at the sleep decision, a low debug pin means no deepsleep
event ever occurs; otherwise the trace ends with the deepsleep call
whose argument is INTERVAL * 1000 milliseconds, which for the
configured 900 second interval is exactly 900000. -/
theorem c2_sleep_decision (cfg : Config) (env : Env) :
    (env.debugPin = 0 → ∀ ms, Ev.deepsleepMs ms ∉ run cfg env) ∧
    (env.debugPin ≠ 0 →
      ∃ pre, run cfg env = pre ++ [Ev.sleepMs 2000, Ev.deepsleepMs (cfg.INTERVAL * 1000)]) ∧
    (env.debugPin ≠ 0 → cfg.INTERVAL = 900 →
      ∃ pre, run cfg env = pre ++ [Ev.sleepMs 2000, Ev.deepsleepMs 900000]) := by
  refine ⟨?_, ?_, ?_⟩
  · intro h ms hmem
    have hd : debug_on env = true := by simp [debug_on, h]
    have hzero : List.countP Ev.isDeep (run cfg env) = 0 := by
      rw [run_count_deep cfg env, hd]
      simp
    exact List.countP_eq_zero.mp hzero _ hmem rfl
  · intro h
    have hd : debug_on env = false := by simp [debug_on, beq_iff_eq, h]
    have hsd : sleep_decision cfg env =
        [Ev.sleepMs 2000, Ev.deepsleepMs (cfg.INTERVAL * 1000)] := by
      simp [sleep_decision, hd, deepsleep_till_next_cycle]
    obtain ⟨pre, hpre⟩ := run_reaches_sleep_decision cfg env
    exact ⟨pre, by rw [hpre, hsd]⟩
  · intro h hint
    have hd : debug_on env = false := by simp [debug_on, beq_iff_eq, h]
    have hsd : sleep_decision cfg env =
        [Ev.sleepMs 2000, Ev.deepsleepMs (cfg.INTERVAL * 1000)] := by
      simp [sleep_decision, hd, deepsleep_till_next_cycle]
    obtain ⟨pre, hpre⟩ := run_reaches_sleep_decision cfg env
    refine ⟨pre, ?_⟩
    rw [hpre, hsd]
    simp [hint]

/-- C2 witness: with the debug pin low no deepsleep happens; with it
high and the stock 900 s interval the trace ends in deepsleep 900000 ms. -/
theorem c2_sleep_decision_witness :
    Ev.deepsleepMs 900000 ∉ run config envDebug ∧
    (∃ pre, run config envBase = pre ++ [Ev.sleepMs 2000, Ev.deepsleepMs 900000]) :=
  ⟨(c2_sleep_decision config envDebug).1 (by rfl) 900000,
   (c2_sleep_decision config envBase).2.2 (by decide) (by rfl)⟩

/-- C3: temperature_2_unit returns c * 9 / 5 + 32 when the Fahrenheit
flag is set and returns c unchanged when it is not. -/
theorem c3_unit_converter (cfg : Config) (c : Rat) :
    (cfg.FAHRENHEIT = true → temperature_2_unit cfg c = c * 9 / 5 + 32) ∧
    (cfg.FAHRENHEIT = false → temperature_2_unit cfg c = c) := by
  constructor <;> intro h <;> simp [temperature_2_unit, h]

/-- C3 witness at 100 degrees Celsius in both modes. -/
theorem c3_unit_converter_witness :
    temperature_2_unit { config with FAHRENHEIT := true } 100 = 100 * 9 / 5 + 32 ∧
    temperature_2_unit config 100 = 100 :=
  ⟨(c3_unit_converter { config with FAHRENHEIT := true } 100).1 rfl,
   (c3_unit_converter config 100).2 rfl⟩

/-- C4: on the synchronization path with DST enabled, the committed
time is the timezone-corrected NTP time put through dst_adjust, and
dst_adjust adds exactly one hour iff the time lies in the half-open
window from day 31 - (5*year/4 + 4) % 7 of March 02:00 to day
31 - (5*year/4 + 1) % 7 of October 03:00; for 2021 these days are
March 28 and October 31, both Sundays, and the window boundaries
behave half-open. -/
theorem c4_dst_window (cfg : Config) (env : Env) (rtc t0 : Int)
    (hyear : yearOf rtc = 2000)
    (hntp : env.ntpTime = some t0)
    (hdst : cfg.DAYLIGHT_SAVING_TIME = true) :
    (synchronize_rtc cfg env rtc).2 =
      Except.ok (dst_adjust (t0 + cfg.TIMEZONE * 3600)) ∧
    (∀ t1 : Int,
      dst_adjust t1 =
        if mktime (yearOf t1) 3 (31 - (5 * yearOf t1 / 4 + 4) % 7) 2 0 0 ≤ t1 ∧
            t1 < mktime (yearOf t1) 10 (31 - (5 * yearOf t1 / 4 + 1) % 7) 3 0 0
        then t1 + 3600 else t1) ∧
    31 - (5 * 2021 / 4 + 4) % 7 = 28 ∧
    31 - (5 * 2021 / 4 + 1) % 7 = 31 ∧
    weekday 2021 3 28 = 6 ∧
    weekday 2021 10 31 = 6 ∧
    dst_adjust (mktime 2021 3 28 2 0 0) = mktime 2021 3 28 2 0 0 + 3600 ∧
    dst_adjust (mktime 2021 3 28 2 0 0 - 1) = mktime 2021 3 28 2 0 0 - 1 ∧
    dst_adjust (mktime 2021 10 31 3 0 0 - 1) = mktime 2021 10 31 3 0 0 - 1 + 3600 ∧
    dst_adjust (mktime 2021 10 31 3 0 0) = mktime 2021 10 31 3 0 0 := by
  refine ⟨?_, fun t1 => rfl, by decide, by decide, by decide, by decide,
    by decide, by decide, by decide, by decide⟩
  simp [synchronize_rtc, hyear, hntp, hdst]

/-- C4 witness: a concrete synchronization from the sentinel clock;
the NTP instant 670000000 falls on 2021-03-25, before the window, so
no hour is added. -/
theorem c4_dst_window_witness :
    yearOf 0 = 2000 ∧
    (synchronize_rtc config envBase 0).2 =
      Except.ok (dst_adjust (670000000 + config.TIMEZONE * 3600)) ∧
    dst_adjust (670000000 + config.TIMEZONE * 3600) = 670003600 :=
  ⟨rfl, (c4_dst_window config envBase 0 670000000 rfl rfl rfl).1, by decide⟩

/-- C5: for any clock whose year is not the sentinel 2000, the
synchronizer performs no events at all (in particular no NTP fetch)
and returns the clock unchanged. -/
theorem c5_sync_idempotent (cfg : Config) (env : Env) (rtc : Int)
    (h : yearOf rtc ≠ 2000) :
    synchronize_rtc cfg env rtc = ([], Except.ok rtc) :=
  synchronize_rtc_noop cfg env rtc h

/-- C5 witness at a clock value in 2022. -/
theorem c5_sync_idempotent_witness :
    yearOf 700000000 ≠ 2000 ∧
    synchronize_rtc config envBase 700000000 = ([], Except.ok 700000000) :=
  ⟨by decide, c5_sync_idempotent config envBase 700000000 (by decide)⟩

/-- C6: with both endpoints successful and at least 4 daily entries,
the fetch returns exactly 4 day records, index 0 from the first
endpoint and indices 1..3 from daily entries 1..3, each temperature
being the unit conversion of the raw value minus 273.15; a non-success
status from either endpoint yields an error. -/
theorem c6_forecast_client (cfg : Config) (env : Env) :
    (∀ (h1 : env.resp1.status < 400) (h2 : env.resp2.status < 400)
        (hlen : 4 ≤ env.resp2.daily.length),
      (get_weather_data cfg env).2 =
        Except.ok
          [ { temp := temperature_2_unit cfg (env.resp1.temp - 273.15)
              hum := env.resp1.humidity
              pres := env.resp1.pressure
              icon := env.resp1.icon
              report := env.resp1.description },
            owDay cfg (env.resp2.daily.get ⟨1, by omega⟩),
            owDay cfg (env.resp2.daily.get ⟨2, by omega⟩),
            owDay cfg (env.resp2.daily.get ⟨3, by omega⟩) ] ∧
      (∃ l, (get_weather_data cfg env).2 = Except.ok l ∧ l.length = 4)) ∧
    (∀ e : DailyEntry, (owDay cfg e).temp = temperature_2_unit cfg (e.temp_day - 273.15)) ∧
    ((¬ env.resp1.status < 400 ∨ ¬ env.resp2.status < 400) →
      ∃ er, (get_weather_data cfg env).2 = Except.error er) := by
  refine ⟨?_, fun e => rfl, ?_⟩
  · intro h1 h2 hlen
    have hw := get_weather_data_ok cfg env h1 h2 hlen
    rw [hw]
    exact ⟨rfl, ⟨_, rfl, rfl⟩⟩
  · intro h
    by_cases h1 : env.resp1.status < 400
    · rcases h with h | h
      · exact absurd h1 h
      · refine ⟨Err.url2Failed, ?_⟩
        simp [get_weather_data, h1, h]
    · refine ⟨Err.url1Failed, ?_⟩
      simp [get_weather_data, h1]

/-- C6 witness: the success path on the concrete environment and the
failure path with a 500 status from the first endpoint. -/
theorem c6_forecast_client_witness :
    envBase.resp1.status < 400 ∧ 4 ≤ envBase.resp2.daily.length ∧
    (∃ l, (get_weather_data config envBase).2 = Except.ok l ∧ l.length = 4) ∧
    (∃ er, (get_weather_data config envOw1Fail).2 = Except.error er) :=
  ⟨by decide, by decide,
   ((c6_forecast_client config envBase).1 (by decide) (by decide) (by decide)).2,
   (c6_forecast_client config envOw1Fail).2.2 (Or.inl (by decide))⟩

/-- C7: a bus scan missing an expected sensor address fails with
sensor-not-found at that sensor without attempting the remaining
sensors (in particular, a missing 0x77 never touches the luminance
sensor), while a scan with all of 0x5C, 0x77, 0x23 yields the fully
populated reading. -/
theorem c7_sensor_reader (cfg : Config) (env : Env) :
    (92 ∉ env.scanDevs →
      (get_sensor_readings cfg env).2 = Except.error (Err.sensorNotFound 92) ∧
      Ev.amMeasure ∉ (get_sensor_readings cfg env).1 ∧
      Ev.bmpMeasure ∉ (get_sensor_readings cfg env).1 ∧
      Ev.bhMeasure ∉ (get_sensor_readings cfg env).1) ∧
    (92 ∈ env.scanDevs → 119 ∉ env.scanDevs →
      (get_sensor_readings cfg env).2 = Except.error (Err.sensorNotFound 119) ∧
      Ev.bhMeasure ∉ (get_sensor_readings cfg env).1) ∧
    (92 ∈ env.scanDevs → 119 ∈ env.scanDevs → 35 ∉ env.scanDevs →
      (get_sensor_readings cfg env).2 = Except.error (Err.sensorNotFound 35)) ∧
    (92 ∈ env.scanDevs → 119 ∈ env.scanDevs → 35 ∈ env.scanDevs →
      (get_sensor_readings cfg env).2 =
        Except.ok
          { am2320_temp := temperature_2_unit cfg env.am_temp
            am2320_hum := env.am_hum
            bmp180_temp := temperature_2_unit cfg env.bmp_temp
            bmp180_pres := env.bmp_pres / 100
            bmp180_alt := env.bmp_alt
            bh1750_lum := env.bh_lum }) := by
  refine ⟨?_, ?_, ?_, ?_⟩
  · intro h92
    have hgs : get_sensor_readings cfg env =
        ([Ev.scan, Ev.scan], Except.error (Err.sensorNotFound 92)) := by
      simp [get_sensor_readings, h92]
    refine ⟨by simp [hgs], by simp [hgs], by simp [hgs], by simp [hgs]⟩
  · intro h92 h119
    have hgs : get_sensor_readings cfg env =
        ([Ev.scan, Ev.scan, Ev.amMeasure, Ev.scan],
         Except.error (Err.sensorNotFound 119)) := by
      simp [get_sensor_readings, h92, h119]
    refine ⟨by simp [hgs], by simp [hgs]⟩
  · intro h92 h119 h35
    simp [get_sensor_readings, h92, h119, h35]
  · intro h92 h119 h35
    rw [get_sensor_readings_ok cfg env h92 h119 h35]

/-- C7 witness: a scan without the BMP180 address fails without
touching the luminance sensor, and the full scan succeeds. -/
theorem c7_sensor_reader_witness :
    119 ∉ envNo119.scanDevs ∧
    (get_sensor_readings config envNo119).2 = Except.error (Err.sensorNotFound 119) ∧
    Ev.bhMeasure ∉ (get_sensor_readings config envNo119).1 ∧
    (get_sensor_readings config envBase).2 =
      Except.ok
        { am2320_temp := temperature_2_unit config envBase.am_temp
          am2320_hum := envBase.am_hum
          bmp180_temp := temperature_2_unit config envBase.bmp_temp
          bmp180_pres := envBase.bmp_pres / 100
          bmp180_alt := envBase.bmp_alt
          bh1750_lum := envBase.bh_lum } :=
  ⟨by decide,
   ((c7_sensor_reader config envNo119).2.1 (by decide) (by decide)).1,
   ((c7_sensor_reader config envNo119).2.1 (by decide) (by decide)).2,
   (c7_sensor_reader config envBase).2.2.2 (by decide) (by decide) (by decide)⟩

/-- C8: the WiFi join waits one second between status polls at most
MAX_TRIES times; if the connection never comes up the step fails with
the WiFi error after exactly MAX_TRIES waits; and within one cycle the
connect attempt happens at most once. -/
theorem c8_wifi_retry_bound (cfg : Config) (env : Env) :
    List.countP Ev.isWait1s (connect_wifi cfg env).1 ≤ cfg.MAX_TRIES ∧
    ((∀ n, env.isconn n = false) →
      (connect_wifi cfg env).2 = Except.error Err.wifiFailed ∧
      List.countP Ev.isWait1s (connect_wifi cfg env).1 = cfg.MAX_TRIES) ∧
    List.countP Ev.isConnAttempt (run cfg env) ≤ 1 :=
  ⟨connect_wifi_wait_bound cfg env,
   fun h => connect_wifi_never cfg env h,
   run_count_attempt cfg env⟩

/-- C8 witness: with the WiFi never connecting the bound of 20 waits
is exhausted and the step fails. -/
theorem c8_wifi_retry_bound_witness :
    (connect_wifi config envWifiFail).2 = Except.error Err.wifiFailed ∧
    List.countP Ev.isWait1s (connect_wifi config envWifiFail).1 = config.MAX_TRIES ∧
    List.countP Ev.isConnAttempt (run config envWifiFail) ≤ 1 :=
  ⟨((c8_wifi_retry_bound config envWifiFail).2.1 (fun n => rfl)).1,
   ((c8_wifi_retry_bound config envWifiFail).2.1 (fun n => rfl)).2,
   (c8_wifi_retry_bound config envWifiFail).2.2⟩

/-- C9: the upload issues exactly one GET carrying the four readings
as parameters, returns normally exactly on a success status, and
raises the ThingSpeak error exactly on a non-success status. -/
theorem c9_telemetry_upload (cfg : Config) (sd : SensorData) (env : Env) :
    (log_sensor_readings cfg sd env).1 =
      [Ev.httpGet (Req.thingspeak sd.am2320_temp sd.am2320_hum sd.bmp180_pres sd.bh1750_lum)] ∧
    ((log_sensor_readings cfg sd env).2 = Except.ok () ↔ env.logStatus < 400) ∧
    ((log_sensor_readings cfg sd env).2 = Except.error Err.thingspeakFailed ↔
      ¬ env.logStatus < 400) := by
  refine ⟨rfl, ?_, ?_⟩ <;> by_cases h : env.logStatus < 400 <;>
    simp [log_sensor_readings, h]

/-- C10: a bus scan without the display address 60 = 0x3C makes the
render step fail before any page is shown, so with every earlier step
succeeding the cycle errors out, the upload webhook is never called,
no page is shown, and the fault boundary fires. -/
theorem c10_display_gate (cfg : Config) (env : Env)
    (hconn : ∀ n, env.isconn n = true)
    (hyear : yearOf env.rtc0 ≠ 2000)
    (h1 : env.resp1.status < 400) (h2 : env.resp2.status < 400)
    (hlen : 4 ≤ env.resp2.daily.length)
    (h92 : 92 ∈ env.scanDevs) (h119 : 119 ∈ env.scanDevs) (h35 : 35 ∈ env.scanDevs)
    (h60 : 60 ∉ env.scanDevs) :
    (cycle_steps cfg env).2 = Except.error Err.oledNotFound ∧
    List.countP Ev.isTs (run cfg env) = 0 ∧
    List.countP Ev.isPage (run cfg env) = 0 ∧
    List.countP Ev.isCaught (run cfg env) = 1 := by
  have hcy := cycle_steps_no_display cfg env hconn hyear h1 h2 hlen h92 h119 h35 h60
  have her : (cycle_steps cfg env).2 = Except.error Err.oledNotFound := by rw [hcy]
  refine ⟨her, ?_, ?_, ?_⟩ <;>
    rw [run_of_error cfg env _ her, hcy] <;>
    simp [List.countP_append, List.countP_cons, Ev.isTs, Ev.isPage, Ev.isCaught,
      show_error_count_ts, show_error_count_page, show_error_count_caught,
      sleep_decision_count_ts, sleep_decision_count_page, sleep_decision_count_caught]

/-- C10 witness: the concrete environment whose scan answers the three
sensors but not the display. -/
theorem c10_display_gate_witness :
    (cycle_steps config envNoOled).2 = Except.error Err.oledNotFound ∧
    List.countP Ev.isTs (run config envNoOled) = 0 ∧
    List.countP Ev.isPage (run config envNoOled) = 0 ∧
    List.countP Ev.isCaught (run config envNoOled) = 1 :=
  c10_display_gate config envNoOled (fun n => rfl) (by decide) (by decide) (by decide)
    (by decide) (by decide) (by decide) (by decide) (by decide)

end WeatherStation
